import Mathlib

/-!
Verification development for the `rasppi-utils` repository.

The repository has two components: a status dashboard
(`status-dashboard/scripts/server.py`) that shells out to `systemctl` and
`journalctl` and reshapes their output into JSON, and a Supabase keep-alive
pinger, present twice: a full implementation
(`supabase-keepalive/scripts/keepalive.py`) and a stub
(`scripts/supabase_keepalive.py`).

External collaborators (the OS subprocess layer, the Python runtime's
`str.isalnum`/`str.strip`/`int`, `json.loads`, `datetime`) are embedded as
explicit inputs or as Lean functions modelling their documented behaviour;
the doc comment of each such definition records the modelling choices.
Machine floats appear in the source only in
`datetime.fromtimestamp(timestamp_us / 1_000_000)`; that conversion is exact
for every microsecond count below 2^53, which covers all realistic journal
timestamps, so the embedding uses exact integer arithmetic.
-/

/-- Modelled from the Python runtime: the whitespace characters removed by
`str.strip()`. Restricted to the ASCII whitespace set (space, tab, newline,
carriage return, vertical tab, form feed); Unicode whitespace beyond ASCII
never occurs in the inputs considered here. -/
def pyIsSpace (c : Char) : Bool :=
  c == ' ' || c == '\t' || c == '\n' || c == '\r' || c.toNat == 11 || c.toNat == 12

/-- Modelled from the Python runtime: `str.strip()` with no argument removes
leading and trailing whitespace. -/
def pyStrip (s : String) : String :=
  String.mk (((s.toList.dropWhile pyIsSpace).reverse.dropWhile pyIsSpace).reverse)

/-- Modelled from the Python runtime: `str.isalnum()` is true when every
character is a Unicode alphanumeric (categories L*, Nd, Nl, No). The model is
exact on code points below 0x100: ASCII letters and digits, the Latin-1
ordinal/superscript signs ª ² ³ µ ¹ º, and the Latin-1 letters 0xC0–0xFF
except × (0xD7) and ÷ (0xF7). Higher code points, which no claim exercises,
are mapped to false. -/
def pyIsAlnumChar (c : Char) : Bool :=
  c.isAlphanum ||
    (let n := c.toNat
     n == 0xAA || n == 0xB2 || n == 0xB3 || n == 0xB5 || n == 0xB9 || n == 0xBA ||
       (0xC0 ≤ n && n ≤ 0xFF && n != 0xD7 && n != 0xF7))

/-- Digits of a decimal numeral to a natural number. -/
def digitsToNat (cs : List Char) : Nat :=
  cs.foldl (fun acc c => 10 * acc + (c.toNat - '0'.toNat)) 0

/-- Modelled from the Python runtime: `int(s)` for a string argument strips
whitespace, accepts an optional sign followed by decimal digits, and raises
`ValueError` otherwise (`none` here). Underscore digit grouping, which never
occurs in journal output, is not modelled. -/
def pyIntOfString (s : String) : Option Int :=
  let cs := (pyStrip s).toList
  let signDigits : Int × List Char :=
    match cs with
    | '+' :: r => (1, r)
    | '-' :: r => (-1, r)
    | r => (1, r)
  if signDigits.2 ≠ [] ∧ signDigits.2.all Char.isDigit then
    some (signDigits.1 * (digitsToNat signDigits.2 : Int))
  else
    none

/-! ## Unit status probing (`server.py`, `get_unit_status`) -/

/-- The outcome of one `subprocess.run(["systemctl", ...], capture_output=True,
text=True)` call: `Except.error` when the invocation itself raises (missing
binary, permission error), `Except.ok stdout` when it runs, including
non-zero exits, which `systemctl` reports with empty or short stdout. -/
structure ProbeOutcome where
  isActiveRun : Except String String
  isEnabledRun : Except String String

/-- A systemd unit status record as built by `get_unit_status`. -/
structure UnitStatus where
  name : String
  active : String
  enabled : String
deriving DecidableEq, Repr

/-- Embeds `get_unit_status` of `server.py`. The two subprocess calls are the
collaborator input `p`; each is wrapped in its own try/except: a raised
invocation maps its axis to `"error"`, a completed one stores the stripped
stdout, with empty stdout normalised to `"inactive"` / `"disabled"`.
The initial `"unknown"` values are always overwritten. -/
def get_unit_status (unit_name : String) (p : ProbeOutcome) : UnitStatus :=
  let r0 : UnitStatus := { name := unit_name, active := "unknown", enabled := "unknown" }
  let r1 : UnitStatus :=
    match p.isActiveRun with
    | Except.ok out =>
        { r0 with active := if pyStrip out == "" then "inactive" else pyStrip out }
    | Except.error _ => { r0 with active := "error" }
  match p.isEnabledRun with
  | Except.ok out =>
      { r1 with enabled := if pyStrip out == "" then "disabled" else pyStrip out }
  | Except.error _ => { r1 with enabled := "error" }

/-- A utility status record as built by `get_utility_status`. -/
structure UtilityStatus where
  name : String
  enabled : Bool
  services : List UnitStatus
  timers : List UnitStatus
deriving DecidableEq, Repr

/-- Embeds `get_utility_status` of `server.py`. `pService` and `pTimer` are
the collaborator outcomes of the two `get_unit_status` calls, for
`<utility>.service` and `<utility>.timer` respectively. The timer record is
appended only when its `enabled` value is neither `"not-found"` nor
`"error"`. -/
def get_utility_status (utility : String) (pService pTimer : ProbeOutcome) : UtilityStatus :=
  let service_name := utility ++ ".service"
  let timer_name := utility ++ ".timer"
  let timer_status := get_unit_status timer_name pTimer
  { name := utility
    enabled := true
    services := [get_unit_status service_name pService]
    timers :=
      if timer_status.enabled == "not-found" || timer_status.enabled == "error" then []
      else [timer_status] }

/-! ## Utility list loader (`server.py`, `get_enabled_utilities`) -/

/-- Modelled from the Python runtime: `s.startswith(pre)`. -/
def pyStartsWith (s pre : String) : Bool :=
  pre.toList.isPrefixOf s.toList

/-- The body of the reading loop of `get_enabled_utilities` in `server.py`:
the line is stripped; an empty or `#`-prefixed result is skipped
(`if line and not line.startswith("#")`), every other stripped line is
appended. -/
def loaderStep (acc : List String) (line : String) : List String :=
  let line := pyStrip line
  if !(line == "") && !(pyStartsWith line "#") then acc ++ [line] else acc

/-- Embeds `get_enabled_utilities` of `server.py`. The collaborator input is
the configuration file: `none` when `UTILITIES_CONF` does not exist,
`some lines` for its text split into lines (each line as iterated by Python,
before stripping). -/
def get_enabled_utilities (file : Option (List String)) : List String :=
  match file with
  | none => []
  | some lines => lines.foldl loaderStep []

/-! ## Log fetching (`server.py`, `get_logs`) -/

/-- A JSON value, as produced by Python's `json.loads`. Numbers are modelled
as integers: `journalctl --output=json` emits integer-valued fields only, and
no claim exercises fractional JSON numbers. -/
inductive JVal where
  | null : JVal
  | bool (b : Bool) : JVal
  | num (n : Int) : JVal
  | str (s : String) : JVal
  | arr (xs : List JVal) : JVal
  | obj (kvs : List (String × JVal)) : JVal

/-- True exactly for JSON objects — the values on which Python's
`entry.get(...)` succeeds. -/
def jIsObj : JVal → Bool
  | JVal.obj _ => true
  | _ => false

/-- One line of `journalctl` stdout after `strip().split("\n")`, classified by
its `json.loads` outcome (the JSON parser is an external collaborator):
`empty` for the empty string (skipped before parsing), `invalid` when
`json.loads` raises `JSONDecodeError`, `parsed v` when it returns `v`. -/
inductive JLine where
  | empty : JLine
  | invalid : JLine
  | parsed (v : JVal) : JLine

/-- Exceptions relevant to the log-parsing loop. The inner handler of
`get_logs` catches `json.JSONDecodeError` and `ValueError` only;
`TypeError` and `AttributeError` escape to the outer handler. -/
inductive PyExc where
  | valueErr : PyExc
  | typeErr : PyExc

/-- Modelled from the Python runtime: `dict.get(k, dflt)` on a dict built by
`json.loads` from `kvs` (later duplicate keys overwrite earlier ones, hence
the reversed search). -/
def dictGet (kvs : List (String × JVal)) (k : String) (dflt : JVal) : JVal :=
  match kvs.reverse.find? (fun kv => kv.1 == k) with
  | some kv => kv.2
  | none => dflt

/-- Modelled from the Python runtime: the builtin `int()` applied to a JSON
value. Integers pass through, booleans map to 0/1, decimal strings are
parsed (`ValueError` otherwise), and `None`, lists and dicts raise
`TypeError`. -/
def pyIntOfJVal : JVal → Except PyExc Int
  | JVal.num n => Except.ok n
  | JVal.bool b => Except.ok (if b then 1 else 0)
  | JVal.str s =>
      match pyIntOfString s with
      | some n => Except.ok n
      | none => Except.error PyExc.valueErr
  | JVal.null => Except.error PyExc.typeErr
  | JVal.arr _ => Except.error PyExc.typeErr
  | JVal.obj _ => Except.error PyExc.typeErr

/-- Two-digit zero-padded decimal. -/
def pad2 (n : Nat) : String :=
  if n < 10 then "0" ++ toString n else toString n

/-- Four-digit zero-padded decimal (the year field of `isoformat`). -/
def pad4 (n : Nat) : String :=
  if n < 10 then "000" ++ toString n
  else if n < 100 then "00" ++ toString n
  else if n < 1000 then "0" ++ toString n
  else toString n

/-- Six-digit zero-padded decimal (the microsecond field of `isoformat`). -/
def pad6 (n : Nat) : String :=
  let s := toString n
  String.mk (List.replicate (6 - s.length) '0') ++ s

/-- Days since 1970-01-01 to a proleptic Gregorian civil date
(year, month, day); the standard era-based conversion. -/
def civilFromDays (z0 : Int) : Int × Nat × Nat :=
  let z := z0 + 719468
  let era := z.fdiv 146097
  let doe := (z - era * 146097).toNat
  let yoe := (doe - doe / 1460 + doe / 36524 - doe / 146096) / 365
  let doy := doe - (365 * yoe + yoe / 4 - yoe / 100)
  let mp := (5 * doy + 2) / 153
  let d := doy - (153 * mp + 2) / 5 + 1
  let m := if mp < 10 then mp + 3 else mp - 9
  (era * 400 + yoe + (if m ≤ 2 then 1 else 0), m, d)

/-- Modelled from the Python runtime:
`datetime.fromtimestamp(us / 1_000_000).isoformat()` for a microsecond count
`us`. The float division is exact for `|us| < 2^53` (all realistic journal
timestamps) and `fromtimestamp` rounds back to whole microseconds, so the
composition is the exact integer computation below. `fromtimestamp` without
`tz` uses the local timezone; the model fixes it to UTC. `isoformat` omits
the `.ffffff` fraction when the microsecond part is zero. -/
def isoOfEpochMicros (us : Int) : String :=
  let sec := us.fdiv 1000000
  let micro := (us - sec * 1000000).toNat
  let days := sec.fdiv 86400
  let sod := (sec - days * 86400).toNat
  let ymd := civilFromDays days
  pad4 ymd.1.toNat ++ "-" ++ pad2 ymd.2.1 ++ "-" ++ pad2 ymd.2.2 ++ "T" ++
    pad2 (sod / 3600) ++ ":" ++ pad2 (sod % 3600 / 60) ++ ":" ++ pad2 (sod % 60) ++
    (if micro == 0 then "" else "." ++ pad6 micro)

/-- One parsed log entry, as appended by `get_logs`: the converted timestamp
and the raw `MESSAGE` field (`entry.get("MESSAGE", "")` can yield any JSON
value, hence `JVal`). -/
structure LogEntry where
  timestamp : String
  message : JVal

/-- The effect of one iteration of the parsing loop of `get_logs` on one
line: skip it (`continue`, for empty lines, `JSONDecodeError` and
`ValueError`), append an entry, or raise an exception that escapes the inner
handler (`AttributeError` when the parsed value is not a dict, `TypeError`
from `int()` on `None`/list/dict). -/
inductive LineStep where
  | skip : LineStep
  | keep (e : LogEntry) : LineStep
  | raise (msg : String) : LineStep

/-- Embeds one iteration of the `for line in result.stdout.strip().split("\n")`
loop of `get_logs`. -/
def processLine : JLine → LineStep
  | JLine.empty => LineStep.skip
  | JLine.invalid => LineStep.skip
  | JLine.parsed (JVal.obj kvs) =>
      match pyIntOfJVal (dictGet kvs "__REALTIME_TIMESTAMP" (JVal.num 0)) with
      | Except.ok t =>
          LineStep.keep { timestamp := isoOfEpochMicros t
                          message := dictGet kvs "MESSAGE" (JVal.str "") }
      | Except.error PyExc.valueErr => LineStep.skip
      | Except.error PyExc.typeErr => LineStep.raise "TypeError"
  | JLine.parsed _ => LineStep.raise "AttributeError"

/-- Embeds the whole parsing loop of `get_logs`: entries accumulate in order;
an escaping exception abandons the loop (and, in `get_logs`, the entries
accumulated so far). -/
def processLines : List JLine → Except String (List LogEntry)
  | [] => Except.ok []
  | l :: rest =>
      match processLine l with
      | LineStep.skip => processLines rest
      | LineStep.keep e => (processLines rest).map (fun es => e :: es)
      | LineStep.raise m => Except.error m

/-- True when the line raises an exception that escapes the inner handler. -/
def lineAborts (l : JLine) : Bool :=
  match processLine l with
  | LineStep.raise _ => true
  | _ => false

/-- The entry a line contributes, `none` when it is skipped or raises. -/
def lineEntry (l : JLine) : Option LogEntry :=
  match processLine l with
  | LineStep.keep e => some e
  | _ => none

/-- The dict returned by `get_logs`: `error` is `some` exactly in the
error-carrying form `{"utility": ..., "error": ..., "entries": []}`. -/
structure LogsResult where
  utility : String
  error : Option String
  entries : List LogEntry

/-- Embeds `get_logs` of `server.py`. The `journalctl -u <utility>.service
--no-pager -n <count> --output=json` invocation is the collaborator input:
`Except.error e` when `subprocess.run` raises (with `str(e) = e`),
`Except.ok lines` for its stdout after `strip().split("\n")`, each line
classified by its parse outcome. Any exception escaping the inner loop is
caught by the outer handler and becomes the error-carrying form. -/
def get_logs (utility : String) (invocation : Except String (List JLine)) : LogsResult :=
  match invocation with
  | Except.error e => { utility := utility, error := some e, entries := [] }
  | Except.ok lines =>
      match processLines lines with
      | Except.error e => { utility := utility, error := some e, entries := [] }
      | Except.ok entries => { utility := utility, error := none, entries := entries }

/-! ## HTTP surface (`server.py`, `api_logs`) -/

/-- The JSON body returned by the `/api/logs/<utility>` route: either the
fixed rejection body `{"error": "Invalid utility name"}` or the serialized
`get_logs` result. -/
inductive ApiLogsBody where
  | invalidName : ApiLogsBody
  | logs (r : LogsResult) : ApiLogsBody

/-- An HTTP response of the log route: status code and JSON body. -/
structure HttpResponse where
  code : Nat
  body : ApiLogsBody

/-- Embeds `api_logs` of `server.py`: the utility name is rejected with 400
when any of its characters is neither alphanumeric (Python `str.isalnum`)
nor a hyphen; otherwise `get_logs` runs (Flask's default status is 200). -/
def api_logs (utility : String) (invocation : Except String (List JLine)) : HttpResponse :=
  if ¬ (utility.toList.all fun c => pyIsAlnumChar c || c == '-') then
    { code := 400, body := ApiLogsBody.invalidName }
  else
    { code := 200, body := ApiLogsBody.logs (get_logs utility invocation) }

/-- The validation pattern stated by the spec for the log route, as a
definition of its own for comparison with the code's check: the name matches
the regular expression `[A-Za-z0-9-]+` anchored to the whole string, i.e. it
is nonempty and each character is an ASCII letter, an ASCII digit or a
hyphen. -/
def matchesUtilityNameRegex (s : String) : Bool :=
  !(s == "") && s.toList.all (fun c => c.isAlphanum || c == '-')

/-! ## Keep-alive pinger, full implementation
(`supabase-keepalive/scripts/keepalive.py`) -/

namespace Keepalive

/-- The process environment after the optional `load_dotenv(env_path)` (the
dotenv loader is an external collaborator): the value of each variable
consulted by `load_config`, `none` when unset. -/
structure Env where
  SUPABASE_URL : Option String
  SUPABASE_KEY : Option String
  SUPABASE_EMAIL : Option String
  SUPABASE_PASSWORD : Option String

/-- The dict returned by `load_config` on success. -/
structure Config where
  url : String
  key : String
  email : String
  password : String

/-- Python truthiness of `os.environ.get(...)`: `None` and the empty string
are falsy. -/
def truthy : Option String → Bool
  | none => false
  | some s => !s.isEmpty

/-- Embeds `load_config` of `keepalive.py`: each missing (or empty) variable
raises `ValueError` with the message below, checked in source order;
`Except.error` carries the exception message. -/
def load_config (env : Env) : Except String Config :=
  if !truthy env.SUPABASE_URL then Except.error "SUPABASE_URL is not set"
  else if !truthy env.SUPABASE_KEY then Except.error "SUPABASE_KEY is not set"
  else if !truthy env.SUPABASE_EMAIL then Except.error "SUPABASE_EMAIL is not set"
  else if !truthy env.SUPABASE_PASSWORD then Except.error "SUPABASE_PASSWORD is not set"
  else Except.ok { url := env.SUPABASE_URL.getD ""
                   key := env.SUPABASE_KEY.getD ""
                   email := env.SUPABASE_EMAIL.getD ""
                   password := env.SUPABASE_PASSWORD.getD "" }

/-- Embeds `main` of `keepalive.py`. `ping_supabase` wraps its network work
in try/except and returns a boolean, so it is the collaborator input
`pingOutcome`. The result is the exit code paired with whether
`ping_supabase` (the only network call) was invoked. -/
def main (env : Env) (pingOutcome : Bool) : Nat × Bool :=
  match load_config env with
  | Except.error _ => (1, false)
  | Except.ok _ => (if pingOutcome then 0 else 1, true)

end Keepalive

/-! ## Keep-alive pinger, stub (`scripts/supabase_keepalive.py`) -/

namespace SupabaseKeepaliveStub

/-- The dict returned by the stub's `load_config`. -/
structure Config where
  url : String
  key : String

/-- Embeds `load_config` of `scripts/supabase_keepalive.py`: the body is
`return {"url": "", "key": ""}` — it reads nothing and never raises,
whatever the environment holds. -/
def load_config (_env : Keepalive.Env) : Except String Config :=
  Except.ok { url := "", key := "" }

/-- Embeds `ping_supabase` of `scripts/supabase_keepalive.py`: the body is
`return False`. -/
def ping_supabase (_url _key : String) : Bool :=
  false

/-- Embeds `main` of `scripts/supabase_keepalive.py`: the body is
`return 1` — it calls neither `load_config` nor `ping_supabase`. -/
def main (_env : Keepalive.Env) : Nat :=
  1

end SupabaseKeepaliveStub

/-! ## Concrete inputs used by witnesses and counterexamples -/

/-- The journal output of the C4 witness: a malformed line interleaved with
valid lines (one with a decimal-string timestamp, one with an integer one)
and an empty line. -/
def c4WitnessLines : List JLine :=
  [JLine.invalid,
   JLine.parsed (JVal.obj [("__REALTIME_TIMESTAMP", JVal.str "123"), ("MESSAGE", JVal.str "a")]),
   JLine.empty,
   JLine.parsed (JVal.obj [("__REALTIME_TIMESTAMP", JVal.num 1000000), ("MESSAGE", JVal.str "b")])]

/-- An environment with every Supabase variable unset — in particular
`SUPABASE_URL` is missing. -/
def envNoSupabaseUrl : Keepalive.Env :=
  { SUPABASE_URL := none, SUPABASE_KEY := none
    SUPABASE_EMAIL := none, SUPABASE_PASSWORD := none }

/-! ## Helper lemmas -/

/-- `get_unit_status` written as one record: each axis depends only on its
own probe outcome. -/
theorem get_unit_status_eq (u : String) (p : ProbeOutcome) :
    get_unit_status u p =
      { name := u
        active :=
          match p.isActiveRun with
          | Except.ok out => if pyStrip out == "" then "inactive" else pyStrip out
          | Except.error _ => "error"
        enabled :=
          match p.isEnabledRun with
          | Except.ok out => if pyStrip out == "" then "disabled" else pyStrip out
          | Except.error _ => "error" } := by
  obtain ⟨a, b⟩ := p
  cases a <;> cases b <;> rfl

/-- The loader's fold is the filter of the stripped lines. -/
theorem get_enabled_utilities_foldl :
    ∀ (lines : List String) (acc : List String),
      lines.foldl loaderStep acc
        = acc ++ (lines.map pyStrip).filter
            (fun l => !(l == "") && !(pyStartsWith l "#"))
  | [], acc => by simp
  | x :: xs, acc => by
      rw [List.foldl_cons, get_enabled_utilities_foldl xs, List.map_cons, List.filter_cons]
      simp only [loaderStep]
      cases h : !(pyStrip x == "") && !(pyStartsWith (pyStrip x) "#") <;>
        simp [h]

/-! ## Claim theorems -/

/-- C1: for every utility name (and all probe outcomes), the aggregated
status record of `get_utility_status` contains exactly one service entry,
the probe of `<name>.service`, unconditionally; and its timer list holds the
`<name>.timer` probe result exactly when that probe's `enabled` value is
neither `not-found` nor `error`, and is empty otherwise. -/
theorem C1_aggregated_status_shape (utility : String) (pService pTimer : ProbeOutcome) :
    (get_utility_status utility pService pTimer).services.length = 1 ∧
      (get_utility_status utility pService pTimer).services
        = [get_unit_status (utility ++ ".service") pService] ∧
      (get_utility_status utility pService pTimer).timers
        = (if (get_unit_status (utility ++ ".timer") pTimer).enabled = "not-found"
              ∨ (get_unit_status (utility ++ ".timer") pTimer).enabled = "error"
           then ([] : List UnitStatus)
           else [get_unit_status (utility ++ ".timer") pTimer]) := by
  refine ⟨rfl, rfl, ?_⟩
  simp [get_utility_status]

/-- C2: `get_unit_status` never propagates an invocation failure: a query
whose `subprocess.run` raises yields the sentinel `error` on its own axis,
and each axis of the result is a function of its own probe outcome alone, so
a failure in one axis cannot change how the other is reported. -/
theorem C2_probe_failure_isolated (u m : String) (q : Except String String) :
    (get_unit_status u ⟨Except.error m, q⟩).active = "error" ∧
      (get_unit_status u ⟨q, Except.error m⟩).enabled = "error" ∧
      (∀ a a' : Except String String,
        (get_unit_status u ⟨a, q⟩).enabled = (get_unit_status u ⟨a', q⟩).enabled) ∧
      (∀ b b' : Except String String,
        (get_unit_status u ⟨q, b⟩).active = (get_unit_status u ⟨q, b'⟩).active) := by
  refine ⟨by rw [get_unit_status_eq], by rw [get_unit_status_eq],
    fun a a' => by rw [get_unit_status_eq, get_unit_status_eq],
    fun b b' => by rw [get_unit_status_eq, get_unit_status_eq]⟩

/-- C3 counterexample: `get_unit_status` copies any non-empty stripped stdout
verbatim, so real `systemctl` outputs such as `failed` (is-active) and
`static` (is-enabled) land outside the claimed closed sets. -/
theorem C3_counterexample_open_vocabulary :
    (get_unit_status "x" ⟨Except.ok "failed\n", Except.ok "static\n"⟩).active = "failed" ∧
      "failed" ∉ (["active", "inactive", "unknown", "error"] : List String) ∧
      (get_unit_status "x" ⟨Except.ok "failed\n", Except.ok "static\n"⟩).enabled = "static" ∧
      "static" ∉ (["enabled", "disabled", "unknown", "error", "not-found"] : List String) := by
  exact ⟨rfl, by decide, rfl, by decide⟩

/-- C3 amended: the `active` and `enabled` fields lie in the claimed closed
sets whenever each query either fails to run or strips to a value of the
documented vocabulary (or to the empty string, normalised to
`inactive`/`disabled`); in general a completed query's non-empty stripped
stdout is copied verbatim, so outputs outside the vocabulary (e.g. `failed`,
`static`) pass through unchanged. -/
theorem C3_amended_closed_sets (u : String) (p : ProbeOutcome)
    (hA : ∀ s, p.isActiveRun = Except.ok s →
      pyStrip s ∈ (["", "active", "inactive", "unknown"] : List String))
    (hE : ∀ s, p.isEnabledRun = Except.ok s →
      pyStrip s ∈ (["", "enabled", "disabled", "unknown", "not-found"] : List String)) :
    (get_unit_status u p).active ∈ (["active", "inactive", "unknown", "error"] : List String) ∧
      (get_unit_status u p).enabled
        ∈ (["enabled", "disabled", "unknown", "error", "not-found"] : List String) := by
  rw [get_unit_status_eq]
  constructor
  · rcases ha : p.isActiveRun with m | s
    · simp
    · have hm := hA s ha
      simp only [List.mem_cons, List.not_mem_nil, or_false] at hm
      rcases hm with h | h | h | h <;> simp [h]
  · rcases he : p.isEnabledRun with m | s
    · simp
    · have hm := hE s he
      simp only [List.mem_cons, List.not_mem_nil, or_false] at hm
      rcases hm with h | h | h | h | h <;> simp [h]

/-- C3 amended, witness: probes returning `active\n` and a raised
`is-enabled` invocation satisfy the vocabulary hypotheses and land in the
closed sets. -/
theorem C3_amended_closed_sets_witness :
    (get_unit_status "w" ⟨Except.ok "active\n", Except.error "boom"⟩).active
        ∈ (["active", "inactive", "unknown", "error"] : List String) ∧
      (get_unit_status "w" ⟨Except.ok "active\n", Except.error "boom"⟩).enabled
        ∈ (["enabled", "disabled", "unknown", "error", "not-found"] : List String) :=
  C3_amended_closed_sets "w" ⟨Except.ok "active\n", Except.error "boom"⟩
    (fun s hs => by injection hs with h; subst h; decide)
    (fun s hs => by cases hs)

/-- C7: the loader returns the empty list when the config file is absent,
and otherwise exactly the stripped lines that are neither blank nor
`#`-prefixed, in file order; in particular the file `a\n# comment\n\nb\n`
yields `["a", "b"]`. -/
theorem C7_loader_filters_lines :
    get_enabled_utilities none = [] ∧
      (∀ lines : List String,
        get_enabled_utilities (some lines)
          = (lines.map pyStrip).filter (fun l => !(l == "") && !(pyStartsWith l "#"))) ∧
      get_enabled_utilities (some ["a\n", "# comment\n", "\n", "b\n"]) = ["a", "b"] := by
  refine ⟨rfl, fun lines => ?_, by decide⟩
  simpa using get_enabled_utilities_foldl lines []

/-- When no line raises an escaping exception, the parsing loop returns the
per-line contributions in order. -/
theorem processLines_eq_ok :
    ∀ ls : List JLine, (∀ l ∈ ls, lineAborts l = false) →
      processLines ls = Except.ok (ls.filterMap lineEntry)
  | [], _ => rfl
  | l :: rest, h => by
      have hl : lineAborts l = false := h l (List.mem_cons_self l rest)
      have hr := processLines_eq_ok rest (fun x hx => h x (List.mem_cons_of_mem l hx))
      cases hp : processLine l with
      | skip => simp [processLines, hp, List.filterMap_cons, lineEntry, hr]
      | keep e => simp [processLines, hp, List.filterMap_cons, lineEntry, hr, Except.map]
      | raise m => simp [lineAborts, hp] at hl

/-- When some line raises an escaping exception, the parsing loop fails. -/
theorem processLines_eq_error :
    ∀ ls : List JLine, (∃ l ∈ ls, lineAborts l = true) →
      ∃ m, processLines ls = Except.error m
  | [], h => absurd h (by simp)
  | l :: rest, h => by
      cases hp : processLine l with
      | skip =>
          rcases h with ⟨x, hx, hab⟩
          rcases List.mem_cons.mp hx with rfl | hx'
          · simp [lineAborts, hp] at hab
          · rcases processLines_eq_error rest ⟨x, hx', hab⟩ with ⟨m, hm⟩
            exact ⟨m, by simp [processLines, hp, hm]⟩
      | keep e =>
          rcases h with ⟨x, hx, hab⟩
          rcases List.mem_cons.mp hx with rfl | hx'
          · simp [lineAborts, hp] at hab
          · rcases processLines_eq_error rest ⟨x, hx', hab⟩ with ⟨m, hm⟩
            exact ⟨m, by simp [processLines, hp, hm, Except.map]⟩
      | raise m => exact ⟨m, by simp [processLines, hp]⟩

/-- C4 counterexample: a line that parses as a JSON object with no timestamp
field is not skipped — `entry.get("__REALTIME_TIMESTAMP", 0)` defaults to 0
and the entry is kept with the epoch timestamp, so the fetch for this
one-line journal output returns one entry where the claim predicts none. -/
theorem C4_counterexample_missing_timestamp_kept :
    get_logs "u" (Except.ok [JLine.parsed (JVal.obj [("MESSAGE", JVal.str "hi")])])
      = { utility := "u", error := none,
          entries := [{ timestamp := "1970-01-01T00:00:00", message := JVal.str "hi" }] } ∧
      (get_logs "u" (Except.ok [JLine.parsed (JVal.obj [("MESSAGE", JVal.str "hi")])])).entries
        ≠ [] := by
  have h : get_logs "u" (Except.ok [JLine.parsed (JVal.obj [("MESSAGE", JVal.str "hi")])])
      = { utility := "u", error := none,
          entries := [{ timestamp := "1970-01-01T00:00:00", message := JVal.str "hi" }] } := rfl
  exact ⟨h, by rw [h]; simp⟩

/-- C4 amended: `get_logs` skips each line that fails to parse as JSON and
each JSON-object line whose timestamp field is a non-numeric string, keeps
the entries of the remaining lines in their relative order (a missing
timestamp is defaulted to 0, not skipped), and such malformed lines do not
abort the fetch — provided no line raises an exception outside the inner
handler (a JSON value that is not an object, or a `null`/array/object
timestamp field, aborts instead, see C10). -/
theorem C4_amended_per_line_skipping (u : String) (ls : List JLine)
    (h : ∀ l ∈ ls, lineAborts l = false) :
    get_logs u (Except.ok ls)
      = { utility := u, error := none, entries := ls.filterMap lineEntry } := by
  have hpl := processLines_eq_ok ls h
  simp [get_logs, hpl]

/-- C4 amended, witness: on a concrete journal output with a malformed line
interleaved, the fetch returns exactly the per-line contributions in
order. -/
theorem C4_amended_per_line_skipping_witness :
    get_logs "svc" (Except.ok c4WitnessLines)
      = { utility := "svc", error := none, entries := c4WitnessLines.filterMap lineEntry } :=
  C4_amended_per_line_skipping "svc" c4WitnessLines (by decide)

/-- C8: when the `journalctl` invocation itself fails, `get_logs` returns
the error-carrying form — the utility name, the exception text and an empty
entry list — instead of raising. -/
theorem C8_invocation_failure_returns_error_form (u e : String) :
    get_logs u (Except.error e) = { utility := u, error := some e, entries := [] } :=
  rfl

/-- C9: a journal line that is a JSON object with a numeric
`__REALTIME_TIMESTAMP` value `t` (microseconds) contributes the entry whose
timestamp is the ISO-8601 rendering of `t / 1_000_000` seconds since the
epoch and whose message is the `MESSAGE` field, the empty string when that
field is absent; the two closed evaluations pin the rendering down. -/
theorem C9_timestamp_conversion :
    (∀ (t : Int) (m : String) (rest : List JLine),
        processLines (JLine.parsed (JVal.obj
            [("__REALTIME_TIMESTAMP", JVal.num t), ("MESSAGE", JVal.str m)]) :: rest)
          = (processLines rest).map
              (fun es => { timestamp := isoOfEpochMicros t, message := JVal.str m } :: es)) ∧
      (∀ (t : Int) (rest : List JLine),
        processLines (JLine.parsed (JVal.obj [("__REALTIME_TIMESTAMP", JVal.num t)]) :: rest)
          = (processLines rest).map
              (fun es => { timestamp := isoOfEpochMicros t, message := JVal.str "" } :: es)) ∧
      isoOfEpochMicros 0 = "1970-01-01T00:00:00" ∧
      isoOfEpochMicros 1700000000123456 = "2023-11-14T22:13:20.123456" :=
  ⟨fun _ _ _ => rfl, fun _ _ => rfl, rfl, rfl⟩

/-- C10: a line that parses as JSON but not as a JSON object raises
`AttributeError` at `entry.get`, which the inner handler does not catch: the
whole fetch returns the error-carrying form with an empty entry list,
discarding entries already parsed, instead of skipping the line. -/
theorem C10_nonobject_line_aborts_fetch (u : String) (ls : List JLine) :
    (∀ v : JVal, jIsObj v = false → lineAborts (JLine.parsed v) = true) ∧
      ((∃ l ∈ ls, lineAborts l = true) →
        ∃ m, get_logs u (Except.ok ls) = { utility := u, error := some m, entries := [] }) := by
  constructor
  · intro v hv
    cases v <;> simp_all [jIsObj, lineAborts, processLine]
  · intro h
    rcases processLines_eq_error ls h with ⟨m, hm⟩
    exact ⟨m, by simp [get_logs, hm]⟩

/-- C10 witness: a journal output whose first line is a valid entry and
whose second parses as a bare JSON array yields the error-carrying form with
no entries. -/
theorem C10_nonobject_line_aborts_fetch_witness :
    ∃ m, get_logs "u2" (Except.ok
        [JLine.parsed (JVal.obj [("__REALTIME_TIMESTAMP", JVal.num 5)]),
         JLine.parsed (JVal.arr [])])
      = { utility := "u2", error := some m, entries := [] } :=
  (C10_nonobject_line_aborts_fetch "u2"
      [JLine.parsed (JVal.obj [("__REALTIME_TIMESTAMP", JVal.num 5)]),
       JLine.parsed (JVal.arr [])]).2
    ⟨JLine.parsed (JVal.arr []),
     List.mem_cons_of_mem _ (List.mem_cons_self _ _), by decide⟩

/-- On ASCII characters, Python's `str.isalnum` coincides with the ASCII
alphanumeric test of the `[A-Za-z0-9-]+` pattern. -/
theorem pyIsAlnumChar_ascii (c : Char) (h : c.toNat < 128) :
    pyIsAlnumChar c = c.isAlphanum := by
  have h1 : (c.toNat == 0xAA) = false := by simp; omega
  have h2 : (c.toNat == 0xB2) = false := by simp; omega
  have h3 : (c.toNat == 0xB3) = false := by simp; omega
  have h4 : (c.toNat == 0xB5) = false := by simp; omega
  have h5 : (c.toNat == 0xB9) = false := by simp; omega
  have h6 : (c.toNat == 0xBA) = false := by simp; omega
  have h7 : decide (0xC0 ≤ c.toNat) = false := by simp; omega
  simp [pyIsAlnumChar, h1, h2, h3, h4, h5, h6, h7]

/-- On all-ASCII character lists, the code's per-character check agrees with
the pattern's. -/
theorem all_alnum_congr :
    ∀ l : List Char, (∀ c ∈ l, c.toNat < 128) →
      l.all (fun c => pyIsAlnumChar c || c == '-')
        = l.all (fun c => c.isAlphanum || c == '-')
  | [], _ => rfl
  | c :: cs, h => by
      rw [List.all_cons, List.all_cons,
        pyIsAlnumChar_ascii c (h c (List.mem_cons_self c cs)),
        all_alnum_congr cs (fun x hx => h x (List.mem_cons_of_mem c hx))]

/-- C5 counterexample: the name `é` does not match `[A-Za-z0-9-]+`, yet the
route accepts it (Python's `str.isalnum` is Unicode-aware), answering 200
where the claim requires 400. -/
theorem C5_counterexample_unicode_name_accepted :
    (api_logs "é" (Except.ok [])).code = 200 ∧ matchesUtilityNameRegex "é" = false := by
  exact ⟨rfl, by decide⟩

/-- C5 amended: the route rejects a name with 400 and body
`{"error": "Invalid utility name"}` exactly when some character is neither
alphanumeric in Python's Unicode sense nor a hyphen. For nonempty all-ASCII
names this coincides with the `[A-Za-z0-9-]+` check — in particular
`foo;rm` is rejected with 400 — but non-ASCII alphanumeric names such as
`é` are also accepted and passed to the log fetcher. -/
theorem C5_amended_validation :
    (∀ inv, api_logs "foo;rm" inv = { code := 400, body := ApiLogsBody.invalidName }) ∧
      (∀ (u : String) (inv : Except String (List JLine)),
        (∀ c ∈ u.toList, c.toNat < 128) → u ≠ "" →
        ((api_logs u inv).code = 400 ↔ matchesUtilityNameRegex u = false)) := by
  constructor
  · intro inv; rfl
  · intro u inv hascii hne
    unfold api_logs matchesUtilityNameRegex
    rw [← all_alnum_congr u.toList hascii]
    have hie : (u == "") = false := by simpa using hne
    rw [hie]
    cases hall : (u.toList.all fun c => pyIsAlnumChar c || c == '-') <;> simp

/-- C5 amended, witness: the all-ASCII nonempty name `ok` instantiates the
equivalence — it is accepted and it matches the pattern. -/
theorem C5_amended_validation_witness :
    (∀ c ∈ "ok".toList, c.toNat < 128) ∧ "ok" ≠ "" ∧
      ((api_logs "ok" (Except.ok [])).code = 400 ↔ matchesUtilityNameRegex "ok" = false) :=
  ⟨by decide, by decide,
    C5_amended_validation.2 "ok" (Except.ok []) (by decide) (by decide)⟩

/-- C6 (against both keep-alive files): with `SUPABASE_URL` unset, the full
implementation's `load_config` raises `ValueError` naming `SUPABASE_URL` and
its `main` returns 1 without invoking the network ping; that `main` returns
0 exactly when configuration loading and the ping both succeed, 1 otherwise,
and attempts the ping exactly when configuration loading succeeds. The stub
`scripts/supabase_keepalive.py` diverges: its `load_config` returns
`{"url": "", "key": ""}` without raising and its `main` returns 1
unconditionally. -/
theorem C6_keepalive_exit_codes_and_stub :
    Keepalive.load_config envNoSupabaseUrl = Except.error "SUPABASE_URL is not set" ∧
      pyStartsWith "SUPABASE_URL is not set" "SUPABASE_URL" = true ∧
      (∀ ping, Keepalive.main envNoSupabaseUrl ping = (1, false)) ∧
      (∀ env ping, (Keepalive.main env ping).1 = 0 ↔
        ((∃ c, Keepalive.load_config env = Except.ok c) ∧ ping = true)) ∧
      (∀ env ping, (Keepalive.main env ping).1 = 0 ∨ (Keepalive.main env ping).1 = 1) ∧
      (∀ env ping, (Keepalive.main env ping).2 = true ↔
        (∃ c, Keepalive.load_config env = Except.ok c)) ∧
      SupabaseKeepaliveStub.load_config envNoSupabaseUrl
        = Except.ok { url := "", key := "" } ∧
      (∀ env, SupabaseKeepaliveStub.main env = 1) := by
  refine ⟨rfl, by decide, fun ping => rfl, ?_, ?_, ?_, rfl, fun env => rfl⟩
  · intro env ping
    unfold Keepalive.main
    cases hc : Keepalive.load_config env with
    | error e => simp
    | ok c => cases ping <;> simp
  · intro env ping
    unfold Keepalive.main
    cases hc : Keepalive.load_config env with
    | error e => simp
    | ok c => cases ping <;> simp
  · intro env ping
    unfold Keepalive.main
    cases hc : Keepalive.load_config env with
    | error e => simp
    | ok c => simp
